import Mathlib

/-!
Shallow embedding of the solidus-telebot compliance core.

The definitions below are translated from the repository's Python sources:

* `applyComplianceRules` and its helpers embed
  `EllipticClient.apply_compliance_rules` (src/elliptic_client.py),
  with the category mapping modelled as an association list and the
  high-risk id set computed exactly as the Python set comprehension does.
* `checkUsageLimit` embeds `Database.check_usage_limit` (src/database.py),
  taking the fetched user record and the two window counts as inputs
  (the SQL count queries are external collaborators).
* `validateWalletAddress` embeds `validate_wallet_address`
  (src/validators.py), with each regular expression translated to a
  decidable predicate on the stripped character list.
* `analyzeWalletFlow` embeds the event-logging slice of
  `analyze_wallet` (src/bot.py): which usage/error events a single
  message-handling pass appends, as a function of the gate outcomes and
  the API call's result.

Python floats are idealised as rationals (`Rat`); machine evaluation of
`round(x, 2)` is modelled as exact banker's rounding of the rational value.
-/

namespace SolidusTelebot

/-! ## Data model for risk assessments (src/elliptic_client.py) -/

/-- One entry of a matched element's `contributions` list.  Optional fields
mirror the dictionary lookups with defaults in the Python code:
`min_number_of_hops` defaults to `999`, `indirect_percentage` to `0`, and
`risk_triggers.country` to the empty list. -/
structure Contribution where
  minHops : Option Nat
  indirectPercentage : Option Rat
  countryCodes : List String
deriving Repr, DecidableEq

/-- One entry of an exposure's `matched_elements` list; `category_id`
defaults to the string `"Unknown"` when absent. -/
structure MatchedElement where
  categoryId : Option String
  contributions : List Contribution
deriving Repr, DecidableEq

/-- One entry of the `source` / `destination` exposure lists. -/
structure Exposure where
  matchedElements : List MatchedElement
deriving Repr, DecidableEq

/-- The slice of the API response consumed by `apply_compliance_rules`:
`risk_score` plus `evaluation_detail.source` / `evaluation_detail.destination`
(both defaulting to the empty list). -/
structure Assessment where
  riskScore : Option Rat
  sourceExposures : List Exposure
  destinationExposures : List Exposure
deriving Repr, DecidableEq

/-- The configuration constants read from `config` by the compliance rules
(src/config.py). -/
structure Config where
  riskScoreThreshold : Rat
  maxHopDistance : Nat
  gamblingHopLimit : Nat
  gamblingContributionThreshold : Rat
  highRiskCategories : List String
  highRiskCountries : List String
deriving Repr

/-! ## Banker's rounding (Python `round(x, 2)`) -/

/-- Banker's rounding of `100 * q` to an integer, computed on the numerator
and denominator.  `Int.fdiv` is floor division, so `fl = ⌊100 q⌋` and
`r / d` is the fractional part; ties go to the even integer, as Python's
`round` does. -/
def bankersRound100 (q : Rat) : Int :=
  let n : Int := 100 * q.num
  let d : Int := (q.den : Int)
  let fl : Int := Int.fdiv n d
  let r : Int := n - fl * d
  if 2 * r < d then fl
  else if d < 2 * r then fl + 1
  else if fl % 2 = 0 then fl else fl + 1

/-- `round(q, 2)` from the Python standard library, idealised to exact
rational arithmetic. -/
def roundTo2 (q : Rat) : Rat := mkRat (bankersRound100 q) 100

/-! ## Category registry (src/elliptic_client.py lines 50-67, 192-196)

`_load_category_mapping` produces a dict from category id to category
name; we model it as an association list (Python dict keys are unique).
If the CSV fails to load the mapping is empty. -/

/-- `self.category_mapping.get(category_id, "Unknown")` (line 203). -/
def lookupCategory (mapping : List (String × String)) (categoryId : String) : String :=
  match mapping.lookup categoryId with
  | some name => name
  | none => "Unknown"

/-- The set comprehension at lines 193-196: ids whose mapped name lies in
`config.HIGH_RISK_CATEGORIES`. -/
def highRiskCategoryIds (mapping : List (String × String)) (cfg : Config) : List String :=
  (mapping.filter (fun p => cfg.highRiskCategories.contains p.2)).map Prod.fst

/-! ## Verdicts -/

/-- Tag of the first component of the returned pair:
`"Approved"` versus `"Rejected - <reason>"`. -/
inductive Decision where
  | approved
  | rejected
deriving Repr, DecidableEq

/-- Structured form of the `reason` entry of the returned details dict.
Each constructor corresponds to exactly one `return` site of
`apply_compliance_rules` and carries the data interpolated into the
reason string there. -/
inductive Reason where
  | noRiskScore
  | highRiskScore (score : Rat)
  | highRiskCategory (category : String) (hops : Nat)
  | highRiskCountry (country : String) (hops : Nat)
  | gamblingWithinHops (hops : Nat)
  | gamblingThreeHop (hops : Nat) (pct : Rat)
  | allChecksPassed
deriving Repr, DecidableEq

/-- One entry of a `triggered_rules` list (lines 210-214): mapped category
name, effective hop count, and the 2-decimal-rounded contribution. -/
structure RuleHit where
  category : String
  hops : Nat
  contributionPct : Rat
deriving Repr, DecidableEq

/-- The observable outcome of `apply_compliance_rules`: the decision tag,
the structured reason, the `risk_score` detail (absent in the missing-score
branch), and both `triggered_rules` lists. -/
structure Verdict where
  decision : Decision
  reason : Reason
  riskScore : Option Rat
  triggeredSource : List RuleHit
  triggeredDestination : List RuleHit
deriving Repr, DecidableEq

/-! ## The exposure walk (src/elliptic_client.py lines 199-261) -/

/-- The `RuleHit` appended for a visited contribution (lines 210-214). -/
def contributionHit (category : String) (c : Contribution) : RuleHit :=
  { category := category
    hops := c.minHops.getD 999
    contributionPct := roundTo2 (c.indirectPercentage.getD 0) }

/-- The rejection test for one contribution: rule 2 (high-risk category
within hop limit, lines 216-225), then rule 3 (high-risk country, first
matching code in list order, lines 227-239), then rule 4 (gambling special
case, lines 241-261).  Returns the reason of the first rule that fires. -/
def checkContribution (cfg : Config) (hrIds : List String)
    (categoryId category : String) (c : Contribution) : Option Reason :=
  let minHops := c.minHops.getD 999
  let indirectPercentage := c.indirectPercentage.getD 0
  if categoryId ∈ hrIds ∧ minHops ≤ cfg.maxHopDistance then
    some (.highRiskCategory category minHops)
  else
    match c.countryCodes.find?
        (fun cc => cfg.highRiskCountries.contains cc
          && decide (minHops ≤ cfg.maxHopDistance)) with
    | some cc => some (.highRiskCountry cc minHops)
    | none =>
      if category = "Gambling" then
        if minHops ≤ cfg.gamblingHopLimit then
          some (.gamblingWithinHops minHops)
        else if minHops = 3 ∧ cfg.gamblingContributionThreshold < indirectPercentage then
          some (.gamblingThreeHop minHops indirectPercentage)
        else none
      else none

/-- Innermost loop (`for contribution in ...`): append a hit for every
visited contribution, stop at the first rejection. -/
def walkContributions (cfg : Config) (hrIds : List String)
    (categoryId category : String) :
    List Contribution → List RuleHit × Option Reason
  | [] => ([], none)
  | c :: rest =>
    let hit := contributionHit category c
    match checkContribution cfg hrIds categoryId category c with
    | some r => ([hit], some r)
    | none =>
      let step := walkContributions cfg hrIds categoryId category rest
      (hit :: step.1, step.2)

/-- Middle loop (`for matched_element in ...`), resolving the category id
and name exactly as lines 202-203 do. -/
def walkElements (mapping : List (String × String)) (cfg : Config)
    (hrIds : List String) :
    List MatchedElement → List RuleHit × Option Reason
  | [] => ([], none)
  | el :: rest =>
    let categoryId := el.categoryId.getD "Unknown"
    let category := lookupCategory mapping categoryId
    let step := walkContributions cfg hrIds categoryId category el.contributions
    match step.2 with
    | some r => (step.1, some r)
    | none =>
      let next := walkElements mapping cfg hrIds rest
      (step.1 ++ next.1, next.2)

/-- Outer loop over one side's exposure list. -/
def walkExposures (mapping : List (String × String)) (cfg : Config)
    (hrIds : List String) :
    List Exposure → List RuleHit × Option Reason
  | [] => ([], none)
  | ex :: rest =>
    let step := walkElements mapping cfg hrIds ex.matchedElements
    match step.2 with
    | some r => (step.1, some r)
    | none =>
      let next := walkExposures mapping cfg hrIds rest
      (step.1 ++ next.1, next.2)

/-- `EllipticClient.apply_compliance_rules` (lines 167-268): missing-score
approval, the score-threshold rejection, then the Source-then-Destination
exposure walk. -/
def applyComplianceRules (mapping : List (String × String)) (cfg : Config)
    (a : Assessment) : Verdict :=
  match a.riskScore with
  | none =>
    { decision := .approved, reason := .noRiskScore, riskScore := none
      triggeredSource := [], triggeredDestination := [] }
  | some riskScore =>
    if cfg.riskScoreThreshold ≤ riskScore then
      { decision := .rejected, reason := .highRiskScore riskScore
        riskScore := some riskScore
        triggeredSource := [], triggeredDestination := [] }
    else
      let hrIds := highRiskCategoryIds mapping cfg
      let src := walkExposures mapping cfg hrIds a.sourceExposures
      match src.2 with
      | some r =>
        { decision := .rejected, reason := r, riskScore := some riskScore
          triggeredSource := src.1, triggeredDestination := [] }
      | none =>
        let dst := walkExposures mapping cfg hrIds a.destinationExposures
        match dst.2 with
        | some r =>
          { decision := .rejected, reason := r, riskScore := some riskScore
            triggeredSource := src.1, triggeredDestination := dst.1 }
        | none =>
          { decision := .approved, reason := .allChecksPassed
            riskScore := some riskScore
            triggeredSource := src.1, triggeredDestination := dst.1 }

end SolidusTelebot

namespace SolidusTelebot

/-! ## Claim C1 -/

/-- C1: for every assessment whose risk score is absent, the evaluator
returns the Approved decision with the no-risk-score reason (the code's
string literal is "No risk score found", line 181), before any exposure is
visited: both triggered-rules lists are empty, whatever the exposures are. -/
theorem no_risk_score_approves (mapping : List (String × String)) (cfg : Config)
    (a : Assessment) (h : a.riskScore = none) :
    applyComplianceRules mapping cfg a =
      { decision := .approved, reason := .noRiskScore, riskScore := none
        triggeredSource := [], triggeredDestination := [] } := by
  unfold applyComplianceRules
  rw [h]

/-- Witness for C1 at a concrete assessment that carries an exposure which
would otherwise reject. -/
theorem no_risk_score_approves_witness :
    applyComplianceRules [("1", "Ransomware")]
      { riskScoreThreshold := 5, maxHopDistance := 3, gamblingHopLimit := 2
        gamblingContributionThreshold := 3
        highRiskCategories := ["Ransomware"], highRiskCountries := ["KP"] }
      { riskScore := none
        sourceExposures := [⟨[⟨some "1", [⟨some 1, some 9, ["KP"]⟩]⟩]⟩]
        destinationExposures := [] } =
      { decision := .approved, reason := .noRiskScore, riskScore := none
        triggeredSource := [], triggeredDestination := [] } :=
  no_risk_score_approves _ _ _ rfl

/-! ## Claim C2 -/

/-- C2: a present risk score at or above the configured threshold rejects
with the score-citing reason before any exposure is inspected: both
triggered-rules lists come back empty even when the assessment holds an
exposure that would fire a different rule. -/
theorem score_threshold_rejects (mapping : List (String × String)) (cfg : Config)
    (a : Assessment) (rs : Rat) (h : a.riskScore = some rs)
    (ht : cfg.riskScoreThreshold ≤ rs) :
    applyComplianceRules mapping cfg a =
      { decision := .rejected, reason := .highRiskScore rs, riskScore := some rs
        triggeredSource := [], triggeredDestination := [] } := by
  unfold applyComplianceRules
  rw [h]
  simp only [if_pos ht]

/-- Witness for C2: score 7 against threshold 5, on an assessment whose only
exposure is a high-risk category at 1 hop — a disqualifying exposure that
would trigger a different reason if reached. -/
theorem score_threshold_rejects_witness :
    applyComplianceRules [("1", "Ransomware")]
      { riskScoreThreshold := 5, maxHopDistance := 3, gamblingHopLimit := 2
        gamblingContributionThreshold := 3
        highRiskCategories := ["Ransomware"], highRiskCountries := ["KP"] }
      { riskScore := some 7
        sourceExposures := [⟨[⟨some "1", [⟨some 1, some 9, ["KP"]⟩]⟩]⟩]
        destinationExposures := [] } =
      { decision := .rejected, reason := .highRiskScore 7, riskScore := some 7
        triggeredSource := [], triggeredDestination := [] } :=
  score_threshold_rejects _ _ _ _ rfl (by decide)

/-! ## Claims C3 and C4: single-contribution boundary behaviour -/

/-- An assessment holding exactly one Source contribution, as used by the
hop-boundary and gambling-boundary claims. -/
def singleSourceAssessment (rs : Rat) (categoryId : Option String)
    (c : Contribution) : Assessment :=
  { riskScore := some rs
    sourceExposures := [⟨[⟨categoryId, [c]⟩]⟩]
    destinationExposures := [] }

/-- Evaluation of a single-contribution assessment under a sub-threshold
score reduces to the single contribution's check. -/
theorem applyComplianceRules_single (mapping : List (String × String))
    (cfg : Config) (rs : Rat) (cid : String) (c : Contribution)
    (hscore : rs < cfg.riskScoreThreshold) :
    applyComplianceRules mapping cfg (singleSourceAssessment rs (some cid) c) =
      match checkContribution cfg (highRiskCategoryIds mapping cfg) cid
          (lookupCategory mapping cid) c with
      | some r =>
        { decision := .rejected, reason := r, riskScore := some rs
          triggeredSource := [contributionHit (lookupCategory mapping cid) c]
          triggeredDestination := [] }
      | none =>
        { decision := .approved, reason := .allChecksPassed, riskScore := some rs
          triggeredSource := [contributionHit (lookupCategory mapping cid) c]
          triggeredDestination := [] } := by
  cases hc : checkContribution cfg (highRiskCategoryIds mapping cfg) cid
      (lookupCategory mapping cid) c <;>
    simp [applyComplianceRules, singleSourceAssessment, walkExposures,
      walkElements, walkContributions, hc, if_neg (not_le.mpr hscore)]

/-- C3: with a sub-threshold score, a lone contribution whose category id is
in the high-risk set (name not "Gambling", no country triggers) is rejected
exactly when its hop count reaches `maxHopDistance`: at `maxHopDistance`
the verdict is Rejected with the high-risk-category reason, and at
`maxHopDistance + 1` the verdict is Approved — the comparison is inclusive
at the limit and exclusive one past it. -/
theorem high_risk_category_hop_boundary (mapping : List (String × String))
    (cfg : Config) (rs : Rat) (cid : String) (pct : Option Rat) (h : Nat)
    (hscore : rs < cfg.riskScoreThreshold)
    (hmem : cid ∈ highRiskCategoryIds mapping cfg)
    (hname : lookupCategory mapping cid ≠ "Gambling") :
    (h = cfg.maxHopDistance →
      (applyComplianceRules mapping cfg
          (singleSourceAssessment rs (some cid) ⟨some h, pct, []⟩)).decision
          = .rejected ∧
      (applyComplianceRules mapping cfg
          (singleSourceAssessment rs (some cid) ⟨some h, pct, []⟩)).reason
          = .highRiskCategory (lookupCategory mapping cid) h)
    ∧ (h = cfg.maxHopDistance + 1 →
      (applyComplianceRules mapping cfg
          (singleSourceAssessment rs (some cid) ⟨some h, pct, []⟩)).decision
          = .approved ∧
      (applyComplianceRules mapping cfg
          (singleSourceAssessment rs (some cid) ⟨some h, pct, []⟩)).reason
          = .allChecksPassed) := by
  constructor
  · intro hh
    have hcheck : checkContribution cfg (highRiskCategoryIds mapping cfg) cid
        (lookupCategory mapping cid) ⟨some h, pct, []⟩ =
        some (.highRiskCategory (lookupCategory mapping cid) h) := by
      unfold checkContribution
      simp only [Option.getD]
      rw [if_pos ⟨hmem, by omega⟩]
    rw [applyComplianceRules_single mapping cfg rs cid _ hscore, hcheck]
    exact ⟨rfl, rfl⟩
  · intro hh
    have hcheck : checkContribution cfg (highRiskCategoryIds mapping cfg) cid
        (lookupCategory mapping cid) ⟨some h, pct, []⟩ = none := by
      unfold checkContribution
      simp only [Option.getD, List.find?]
      rw [if_neg (by omega : ¬ (cid ∈ highRiskCategoryIds mapping cfg ∧
        h ≤ cfg.maxHopDistance))]
      rw [if_neg hname]
    rw [applyComplianceRules_single mapping cfg rs cid _ hscore, hcheck]
    exact ⟨rfl, rfl⟩

/-- Witness for C3 with `maxHopDistance = 3`: hops 3 rejects, hops 4
approves. -/
theorem high_risk_category_hop_boundary_witness :
    (applyComplianceRules [("1", "Ransomware")]
        { riskScoreThreshold := 5, maxHopDistance := 3, gamblingHopLimit := 2
          gamblingContributionThreshold := 3
          highRiskCategories := ["Ransomware"], highRiskCountries := ["KP"] }
        (singleSourceAssessment 2 (some "1") ⟨some 3, some 1, []⟩)).decision
        = .rejected
    ∧ (applyComplianceRules [("1", "Ransomware")]
        { riskScoreThreshold := 5, maxHopDistance := 3, gamblingHopLimit := 2
          gamblingContributionThreshold := 3
          highRiskCategories := ["Ransomware"], highRiskCountries := ["KP"] }
        (singleSourceAssessment 2 (some "1") ⟨some 4, some 1, []⟩)).decision
        = .approved :=
  ⟨((high_risk_category_hop_boundary _ _ 2 "1" (some 1) 3
      (by decide) (by decide) (by decide)).1 rfl).1,
   ((high_risk_category_hop_boundary _ _ 2 "1" (some 1) 4
      (by decide) (by decide) (by decide)).2 rfl).1⟩

/-- C4: with a sub-threshold score, a lone contribution mapping to the
category name "Gambling" (id not in the high-risk set, no country triggers)
is Rejected at `minHops = gamblingHopLimit`; at `minHops = 3` it is Rejected
when the contribution percentage strictly exceeds
`gamblingContributionThreshold` and Approved when it equals the threshold
exactly (the comparison is strict), assuming `gamblingHopLimit < 3`. -/
theorem gambling_rules_boundary (mapping : List (String × String)) (cfg : Config)
    (rs : Rat) (cid : String) (pct : Option Rat)
    (hscore : rs < cfg.riskScoreThreshold)
    (hnotmem : cid ∉ highRiskCategoryIds mapping cfg)
    (hname : lookupCategory mapping cid = "Gambling")
    (hglimit : cfg.gamblingHopLimit < 3) :
    ((applyComplianceRules mapping cfg (singleSourceAssessment rs (some cid)
        ⟨some cfg.gamblingHopLimit, pct, []⟩)).decision = .rejected ∧
      (applyComplianceRules mapping cfg (singleSourceAssessment rs (some cid)
        ⟨some cfg.gamblingHopLimit, pct, []⟩)).reason
        = .gamblingWithinHops cfg.gamblingHopLimit)
    ∧ (∀ p : Rat, cfg.gamblingContributionThreshold < p →
      (applyComplianceRules mapping cfg (singleSourceAssessment rs (some cid)
        ⟨some 3, some p, []⟩)).decision = .rejected ∧
      (applyComplianceRules mapping cfg (singleSourceAssessment rs (some cid)
        ⟨some 3, some p, []⟩)).reason = .gamblingThreeHop 3 p)
    ∧ ((applyComplianceRules mapping cfg (singleSourceAssessment rs (some cid)
        ⟨some 3, some cfg.gamblingContributionThreshold, []⟩)).decision
        = .approved ∧
      (applyComplianceRules mapping cfg (singleSourceAssessment rs (some cid)
        ⟨some 3, some cfg.gamblingContributionThreshold, []⟩)).reason
        = .allChecksPassed) := by
  refine ⟨?_, ?_, ?_⟩
  · have hcheck : checkContribution cfg (highRiskCategoryIds mapping cfg) cid
        (lookupCategory mapping cid) ⟨some cfg.gamblingHopLimit, pct, []⟩ =
        some (.gamblingWithinHops cfg.gamblingHopLimit) := by
      unfold checkContribution
      simp only [Option.getD, List.find?]
      rw [if_neg (fun hco => hnotmem hco.1), if_pos hname, if_pos (le_refl _)]
    rw [applyComplianceRules_single mapping cfg rs cid _ hscore, hcheck]
    exact ⟨rfl, rfl⟩
  · intro p hp
    have hcheck : checkContribution cfg (highRiskCategoryIds mapping cfg) cid
        (lookupCategory mapping cid) ⟨some 3, some p, []⟩ =
        some (.gamblingThreeHop 3 p) := by
      unfold checkContribution
      simp only [Option.getD, List.find?]
      rw [if_neg (fun hco => hnotmem hco.1), if_pos hname,
        if_neg (by omega : ¬ (3 ≤ cfg.gamblingHopLimit)),
        if_pos (by refine ⟨?_, hp⟩; simp)]
    rw [applyComplianceRules_single mapping cfg rs cid _ hscore, hcheck]
    exact ⟨rfl, rfl⟩
  · have hcheck : checkContribution cfg (highRiskCategoryIds mapping cfg) cid
        (lookupCategory mapping cid)
        ⟨some 3, some cfg.gamblingContributionThreshold, []⟩ = none := by
      unfold checkContribution
      simp only [Option.getD, List.find?]
      rw [if_neg (fun hco => hnotmem hco.1), if_pos hname,
        if_neg (by omega : ¬ (3 ≤ cfg.gamblingHopLimit)),
        if_neg (fun hco => lt_irrefl _ hco.2)]
    rw [applyComplianceRules_single mapping cfg rs cid _ hscore, hcheck]
    exact ⟨rfl, rfl⟩

/-- Witness for C4 with `gamblingHopLimit = 2` and contribution threshold 3:
gambling at 2 hops rejects, at 3 hops with 4% rejects, at 3 hops with
exactly 3% approves. -/
theorem gambling_rules_boundary_witness :
    (applyComplianceRules [("9", "Gambling")]
        { riskScoreThreshold := 5, maxHopDistance := 3, gamblingHopLimit := 2
          gamblingContributionThreshold := 3
          highRiskCategories := ["Ransomware"], highRiskCountries := ["KP"] }
        (singleSourceAssessment 2 (some "9") ⟨some 2, some 1, []⟩)).decision
        = .rejected
    ∧ (applyComplianceRules [("9", "Gambling")]
        { riskScoreThreshold := 5, maxHopDistance := 3, gamblingHopLimit := 2
          gamblingContributionThreshold := 3
          highRiskCategories := ["Ransomware"], highRiskCountries := ["KP"] }
        (singleSourceAssessment 2 (some "9") ⟨some 3, some 4, []⟩)).decision
        = .rejected
    ∧ (applyComplianceRules [("9", "Gambling")]
        { riskScoreThreshold := 5, maxHopDistance := 3, gamblingHopLimit := 2
          gamblingContributionThreshold := 3
          highRiskCategories := ["Ransomware"], highRiskCountries := ["KP"] }
        (singleSourceAssessment 2 (some "9") ⟨some 3, some 3, []⟩)).decision
        = .approved :=
  ⟨(gambling_rules_boundary _ _ 2 "9" (some 1)
      (by decide) (by decide) (by decide) (by decide)).1.1,
   ((gambling_rules_boundary _ _ 2 "9" (some 1)
      (by decide) (by decide) (by decide) (by decide)).2.1 4 (by decide)).1,
   (gambling_rules_boundary _ _ 2 "9" (some 1)
      (by decide) (by decide) (by decide) (by decide)).2.2.1⟩

/-! ## Usage limits (src/database.py lines 262-286) -/

/-- The slice of a `users` row read by `check_usage_limit`. -/
structure UserRecord where
  dailyLimit : Int
  monthlyLimit : Int
deriving Repr, DecidableEq

/-- The tuple returned by `check_usage_limit`:
`(can_use, message, remaining_daily, remaining_monthly)`. -/
structure LimitCheck where
  canUse : Bool
  message : String
  remainingDaily : Int
  remainingMonthly : Int
deriving Repr, DecidableEq

/-- `Database.check_usage_limit`, with the row fetch and the two window
count queries supplied as inputs (they are external-store reads; counts are
non-negative because they come from SQL `COUNT(*)`). -/
def checkUsageLimit (user : Option UserRecord)
    (dailyUsage monthlyUsage : Nat) : LimitCheck :=
  match user with
  | none => { canUse := false, message := "User not authorized"
              remainingDaily := 0, remainingMonthly := 0 }
  | some u =>
    let remainingDaily := max 0 (u.dailyLimit - dailyUsage)
    let remainingMonthly := max 0 (u.monthlyLimit - monthlyUsage)
    if u.dailyLimit ≤ (dailyUsage : Int) then
      { canUse := false
        message := "Daily limit reached (" ++ toString u.dailyLimit
          ++ " queries/day)"
        remainingDaily := remainingDaily, remainingMonthly := remainingMonthly }
    else if u.monthlyLimit ≤ (monthlyUsage : Int) then
      { canUse := false
        message := "Monthly limit reached (" ++ toString u.monthlyLimit
          ++ " queries/month)"
        remainingDaily := remainingDaily, remainingMonthly := remainingMonthly }
    else
      { canUse := true, message := "OK"
        remainingDaily := remainingDaily, remainingMonthly := remainingMonthly }

/-! ## Claim C6 -/

/-- C6: `check_usage_limit` always reports
`remaining = max(0, limit - used)` for both windows; it denies with the
daily-limit message whenever the daily count has reached the daily limit
(taking priority over the monthly check even when both are exceeded and
even when monthly has headroom), otherwise denies with the monthly-limit
message whenever the monthly count has reached the monthly limit, otherwise
allows; an unknown identity is denied with both remaining figures 0. -/
theorem check_usage_limit_spec (user : Option UserRecord)
    (dailyUsage monthlyUsage : Nat) :
    (checkUsageLimit none dailyUsage monthlyUsage =
      { canUse := false, message := "User not authorized"
        remainingDaily := 0, remainingMonthly := 0 })
    ∧ (∀ u : UserRecord, user = some u →
      ((checkUsageLimit user dailyUsage monthlyUsage).remainingDaily
          = max 0 (u.dailyLimit - dailyUsage)
        ∧ (checkUsageLimit user dailyUsage monthlyUsage).remainingMonthly
          = max 0 (u.monthlyLimit - monthlyUsage))
      ∧ (u.dailyLimit ≤ (dailyUsage : Int) →
        checkUsageLimit user dailyUsage monthlyUsage =
          { canUse := false
            message := "Daily limit reached (" ++ toString u.dailyLimit
              ++ " queries/day)"
            remainingDaily := max 0 (u.dailyLimit - dailyUsage)
            remainingMonthly := max 0 (u.monthlyLimit - monthlyUsage) })
      ∧ ((dailyUsage : Int) < u.dailyLimit →
          u.monthlyLimit ≤ (monthlyUsage : Int) →
        checkUsageLimit user dailyUsage monthlyUsage =
          { canUse := false
            message := "Monthly limit reached (" ++ toString u.monthlyLimit
              ++ " queries/month)"
            remainingDaily := max 0 (u.dailyLimit - dailyUsage)
            remainingMonthly := max 0 (u.monthlyLimit - monthlyUsage) })
      ∧ ((dailyUsage : Int) < u.dailyLimit →
          (monthlyUsage : Int) < u.monthlyLimit →
        checkUsageLimit user dailyUsage monthlyUsage =
          { canUse := true, message := "OK"
            remainingDaily := max 0 (u.dailyLimit - dailyUsage)
            remainingMonthly := max 0 (u.monthlyLimit - monthlyUsage) })) := by
  refine ⟨rfl, ?_⟩
  rintro u rfl
  refine ⟨?_, ?_, ?_, ?_⟩
  · simp only [checkUsageLimit]
    split
    · exact ⟨rfl, rfl⟩
    · split <;> exact ⟨rfl, rfl⟩
  · intro hd
    simp only [checkUsageLimit]
    rw [if_pos hd]
  · intro hd hm
    simp only [checkUsageLimit]
    rw [if_neg (not_le.mpr hd), if_pos hm]
  · intro hd hm
    simp only [checkUsageLimit]
    rw [if_neg (not_le.mpr hd), if_neg (not_le.mpr hm)]

/-- Witness for C6: a user with daily limit 5 and monthly limit 300, daily
count exactly 5 but monthly headroom — denied by the daily rule with
remainingDaily 0. -/
theorem check_usage_limit_spec_witness :
    checkUsageLimit (some ⟨5, 300⟩) 5 10 =
      { canUse := false, message := "Daily limit reached (5 queries/day)"
        remainingDaily := 0, remainingMonthly := 290 } :=
  ((check_usage_limit_spec (some ⟨5, 300⟩) 5 10).2 ⟨5, 300⟩ rfl).2.1 (by decide)

/-! ## Claim C8 -/

/-- C8: the evaluator is total over the well-typed input model — every
assessment yields a verdict — and a contribution whose `minHops` field is
missing never by itself fires any hop-based rejection rule (high-risk
category, high-risk country, or either gambling clause, including the
exact-3-hop one), whenever `maxHopDistance` and `gamblingHopLimit` lie
below the 999 sentinel substituted for a missing hop count. -/
theorem missing_min_hops_safe (cfg : Config) (hrIds : List String)
    (categoryId category : String) (c : Contribution)
    (hmiss : c.minHops = none)
    (hmax : cfg.maxHopDistance < 999) (hgl : cfg.gamblingHopLimit < 999) :
    checkContribution cfg hrIds categoryId category c = none
    ∧ ∀ (mapping : List (String × String)) (a : Assessment),
        ∃ v : Verdict, applyComplianceRules mapping cfg a = v := by
  refine ⟨?_, fun mapping a => ⟨_, rfl⟩⟩
  have hfind : c.countryCodes.find?
      (fun cc => cfg.highRiskCountries.contains cc
        && decide ((999 : Nat) ≤ cfg.maxHopDistance)) = none := by
    apply List.find?_eq_none.mpr
    intro x _
    simp only [Bool.and_eq_true, decide_eq_true_eq, not_and]
    intro _
    omega
  unfold checkContribution
  rw [hmiss]
  simp only [Option.getD]
  rw [if_neg (fun hco => absurd hco.2 (by omega)), hfind]
  split
  · rename_i cc heq
    exact Option.noConfusion heq
  · split
    · rw [if_neg (by omega : ¬ ((999 : Nat) ≤ cfg.gamblingHopLimit)),
        if_neg (fun hco => absurd hco.1 (by decide))]
    · rfl

/-- Witness for C8: a missing-hops gambling contribution with a huge
percentage, under the default thresholds, fires no rule. -/
theorem missing_min_hops_safe_witness :
    checkContribution
      { riskScoreThreshold := 5, maxHopDistance := 3, gamblingHopLimit := 2
        gamblingContributionThreshold := 3
        highRiskCategories := ["Ransomware"], highRiskCountries := ["KP"] }
      ["9"] "9" "Gambling" ⟨none, some 99, ["KP"]⟩ = none
    ∧ ∀ (mapping : List (String × String)) (a : Assessment),
        ∃ v : Verdict, applyComplianceRules mapping
          { riskScoreThreshold := 5, maxHopDistance := 3, gamblingHopLimit := 2
            gamblingContributionThreshold := 3
            highRiskCategories := ["Ransomware"], highRiskCountries := ["KP"] }
          a = v :=
  missing_min_hops_safe _ _ "9" "Gambling" ⟨none, some 99, ["KP"]⟩
    rfl (by decide) (by decide)

/-! ## Claim C9 -/

/-- C9: the registry maps every unmapped id to "Unknown" (and, being a pure
function of the mapping, does so on every lookup); the high-risk id set is
exactly the ids paired in the mapping with a name from the configured
high-risk name set (and is likewise stable absent a reload of the mapping);
with an empty mapping the set is empty and every lookup yields "Unknown"
without failing. -/
theorem category_registry_spec (mapping : List (String × String)) (cfg : Config)
    (categoryId : String) :
    (mapping.lookup categoryId = none →
      lookupCategory mapping categoryId = "Unknown")
    ∧ (categoryId ∈ highRiskCategoryIds mapping cfg ↔
        ∃ p ∈ mapping, p.1 = categoryId ∧ p.2 ∈ cfg.highRiskCategories)
    ∧ lookupCategory [] categoryId = "Unknown"
    ∧ highRiskCategoryIds [] cfg = [] := by
  refine ⟨?_, ?_, rfl, rfl⟩
  · intro h
    unfold lookupCategory
    rw [h]
  · unfold highRiskCategoryIds
    simp only [List.mem_map, List.mem_filter]
    constructor
    · rintro ⟨p, ⟨hp, hname⟩, hfst⟩
      exact ⟨p, hp, hfst, List.elem_iff.mp hname⟩
    · rintro ⟨p, hp, hfst, hname⟩
      exact ⟨p, ⟨hp, List.elem_iff.mpr hname⟩, hfst⟩

/-- Witness for C9: a one-entry mapping; the unmapped id "zzz" resolves to
"Unknown" and the high-risk set membership matches the pair condition. -/
theorem category_registry_spec_witness :
    lookupCategory [("1", "Scam")] "zzz" = "Unknown" :=
  (category_registry_spec [("1", "Scam")]
    { riskScoreThreshold := 5, maxHopDistance := 3, gamblingHopLimit := 2
      gamblingContributionThreshold := 3
      highRiskCategories := ["Scam"], highRiskCountries := ["KP"] }
    "zzz").1 (by decide)

/-! ## Wallet address validation (src/validators.py lines 7-37) -/

/-- Python `str.strip()` on the character list: whitespace dropped from
both ends. -/
def pyStrip (cs : List Char) : List Char :=
  ((cs.dropWhile Char.isWhitespace).reverse.dropWhile Char.isWhitespace).reverse

/-- Codepoint membership in an inclusive range — the building block of the
regex character classes below (each range is the codepoint interval of the
regex range). -/
def charIn (lo hi : Nat) (c : Char) : Bool :=
  decide (lo ≤ c.toNat) && decide (c.toNat ≤ hi)

/-- The class `[a-zA-Z0-9]`. -/
def isAlnumChar (c : Char) : Bool :=
  charIn 97 122 c || charIn 65 90 c || charIn 48 57 c

/-- The base58 class `[a-km-zA-HJ-NP-Z1-9]`. -/
def isBase58Char (c : Char) : Bool :=
  charIn 97 107 c || charIn 109 122 c || charIn 65 72 c || charIn 74 78 c
    || charIn 80 90 c || charIn 49 57 c

/-- The class `[a-z0-9]`. -/
def isLowerAlnumChar (c : Char) : Bool := charIn 97 122 c || charIn 48 57 c

/-- The class `[a-fA-F0-9]`. -/
def isHexChar (c : Char) : Bool :=
  charIn 97 102 c || charIn 65 70 c || charIn 48 57 c

/-- The pattern `^[13][a-km-zA-HJ-NP-Z1-9]{25,34}$`. -/
def btcLegacyMatch : List Char → Bool
  | [] => false
  | c :: rest =>
    (c == '1' || c == '3') && rest.all isBase58Char
      && decide (25 ≤ rest.length) && decide (rest.length ≤ 34)

/-- The pattern `^bc1[a-z0-9]{39,59}$`. -/
def btcSegwitMatch : List Char → Bool
  | c1 :: c2 :: c3 :: rest =>
    c1 == 'b' && c2 == 'c' && c3 == '1' && rest.all isLowerAlnumChar
      && decide (39 ≤ rest.length) && decide (rest.length ≤ 59)
  | _ => false

/-- The pattern `^0x[a-fA-F0-9]{40}$`. -/
def ethMatch : List Char → Bool
  | c1 :: c2 :: rest =>
    c1 == '0' && c2 == 'x' && rest.all isHexChar && rest.length == 40
  | _ => false

/-- The pattern `^[LM3][a-km-zA-HJ-NP-Z1-9]{26,33}$`. -/
def ltcMatch : List Char → Bool
  | [] => false
  | c :: rest =>
    (c == 'L' || c == 'M' || c == '3') && rest.all isBase58Char
      && decide (26 ≤ rest.length) && decide (rest.length ≤ 33)

/-- The generic pattern `^[a-zA-Z0-9]{26,90}$`. -/
def genericMatch (cs : List Char) : Bool :=
  cs.all isAlnumChar && decide (26 ≤ cs.length) && decide (cs.length ≤ 90)

/-- `validate_wallet_address`: the emptiness test on the raw input, then
the length check and the five patterns on the stripped address. -/
def validateWalletAddress (address : String) : Bool × String :=
  if address = "" then (false, "Wallet address cannot be empty")
  else
    let cs := pyStrip address.toList
    if cs.length < 26 ∨ 90 < cs.length then
      (false, "Invalid wallet address length")
    else if btcLegacyMatch cs || btcSegwitMatch cs || ethMatch cs
        || ltcMatch cs || genericMatch cs then
      (true, "")
    else
      (false,
        "Invalid wallet address format. Please provide a valid cryptocurrency address.")

/-! Character-class subsumption lemmas for claim C10. -/

theorem base58_subset_alnum (c : Char) (h : isBase58Char c = true) :
    isAlnumChar c = true := by
  simp only [isBase58Char, isAlnumChar, charIn, Bool.or_eq_true,
    Bool.and_eq_true, decide_eq_true_eq] at h ⊢
  omega

theorem lower_subset_alnum (c : Char) (h : isLowerAlnumChar c = true) :
    isAlnumChar c = true := by
  simp only [isLowerAlnumChar, isAlnumChar, charIn, Bool.or_eq_true,
    Bool.and_eq_true, decide_eq_true_eq] at h ⊢
  omega

theorem hex_subset_alnum (c : Char) (h : isHexChar c = true) :
    isAlnumChar c = true := by
  simp only [isHexChar, isAlnumChar, charIn, Bool.or_eq_true,
    Bool.and_eq_true, decide_eq_true_eq] at h ⊢
  omega

theorem all_mono {p q : Char → Bool} (hpq : ∀ c, p c = true → q c = true)
    (cs : List Char) (h : cs.all p = true) : cs.all q = true := by
  rw [List.all_eq_true] at h ⊢
  exact fun x hx => hpq x (h x hx)

theorem btcLegacy_all_alnum (cs : List Char) (h : btcLegacyMatch cs = true) :
    cs.all isAlnumChar = true := by
  cases cs with
  | nil => exact absurd h (by decide)
  | cons c rest =>
    simp only [btcLegacyMatch, Bool.and_eq_true, Bool.or_eq_true,
      beq_iff_eq] at h
    obtain ⟨⟨⟨hc, hrest⟩, -⟩, -⟩ := h
    rw [List.all_cons, Bool.and_eq_true]
    refine ⟨?_, all_mono base58_subset_alnum rest hrest⟩
    rcases hc with rfl | rfl <;> decide

theorem btcSegwit_all_alnum (cs : List Char) (h : btcSegwitMatch cs = true) :
    cs.all isAlnumChar = true := by
  match cs with
  | [] => exact absurd h (by decide)
  | [c1] => exact absurd h (by simp [btcSegwitMatch])
  | [c1, c2] => exact absurd h (by simp [btcSegwitMatch])
  | c1 :: c2 :: c3 :: rest =>
    simp only [btcSegwitMatch, Bool.and_eq_true, beq_iff_eq] at h
    obtain ⟨⟨⟨⟨⟨rfl, rfl⟩, rfl⟩, hrest⟩, -⟩, -⟩ := h
    simp only [List.all_cons, Bool.and_eq_true]
    exact ⟨by decide, by decide, by decide,
      all_mono lower_subset_alnum rest hrest⟩

theorem eth_all_alnum (cs : List Char) (h : ethMatch cs = true) :
    cs.all isAlnumChar = true := by
  match cs with
  | [] => exact absurd h (by decide)
  | [c1] => exact absurd h (by simp [ethMatch])
  | c1 :: c2 :: rest =>
    simp only [ethMatch, Bool.and_eq_true, beq_iff_eq] at h
    obtain ⟨⟨⟨rfl, rfl⟩, hrest⟩, -⟩ := h
    simp only [List.all_cons, Bool.and_eq_true]
    exact ⟨by decide, by decide, all_mono hex_subset_alnum rest hrest⟩

theorem ltc_all_alnum (cs : List Char) (h : ltcMatch cs = true) :
    cs.all isAlnumChar = true := by
  cases cs with
  | nil => exact absurd h (by decide)
  | cons c rest =>
    simp only [ltcMatch, Bool.and_eq_true, Bool.or_eq_true, beq_iff_eq] at h
    obtain ⟨⟨⟨hc, hrest⟩, -⟩, -⟩ := h
    rw [List.all_cons, Bool.and_eq_true]
    refine ⟨?_, all_mono base58_subset_alnum rest hrest⟩
    rcases hc with (rfl | rfl) | rfl <;> decide

/-! ## Claim C10 -/

/-- C10: wallet validation accepts exactly the non-empty inputs whose
stripped form matches the generic pattern `^[a-zA-Z0-9]{26,90}$`; the
chain-specific Bitcoin/Ethereum/Litecoin patterns and the separate length
check never change the accept/reject outcome, each being subsumed by the
generic alphanumeric pattern. -/
theorem validate_wallet_address_generic_equiv (address : String) :
    (validateWalletAddress address).1 = true ↔
      address ≠ "" ∧ genericMatch (pyStrip address.toList) = true := by
  unfold validateWalletAddress
  by_cases he : address = ""
  · simp [he]
  · rw [if_neg he]
    by_cases hlen : (pyStrip address.toList).length < 26 ∨
        90 < (pyStrip address.toList).length
    · rw [if_pos hlen]
      simp only [genericMatch, Bool.and_eq_true, decide_eq_true_eq]
      constructor
      · intro h
        exact absurd h (by simp)
      · rintro ⟨-, ⟨-, h26⟩, h90⟩
        omega
    · rw [if_neg hlen]
      push_neg at hlen
      obtain ⟨h26, h90⟩ := hlen
      by_cases hd : (btcLegacyMatch (pyStrip address.toList)
          || btcSegwitMatch (pyStrip address.toList)
          || ethMatch (pyStrip address.toList)
          || ltcMatch (pyStrip address.toList)
          || genericMatch (pyStrip address.toList)) = true
      · rw [if_pos hd]
        simp only [true_iff]
        refine ⟨he, ?_⟩
        simp only [Bool.or_eq_true] at hd
        have halnum : (pyStrip address.toList).all isAlnumChar = true := by
          rcases hd with ((((h | h) | h) | h) | h)
          · exact btcLegacy_all_alnum _ h
          · exact btcSegwit_all_alnum _ h
          · exact eth_all_alnum _ h
          · exact ltc_all_alnum _ h
          · simp only [genericMatch, Bool.and_eq_true] at h
            exact h.1.1
        simp only [genericMatch, Bool.and_eq_true, decide_eq_true_eq]
        exact ⟨⟨halnum, by omega⟩, by omega⟩
      · rw [if_neg hd]
        constructor
        · intro h
          exact absurd h (by simp)
        · rintro ⟨-, hg⟩
          exact absurd (by simp only [Bool.or_eq_true]; exact Or.inr hg :
            (btcLegacyMatch (pyStrip address.toList)
            || btcSegwitMatch (pyStrip address.toList)
            || ethMatch (pyStrip address.toList)
            || ltcMatch (pyStrip address.toList)
            || genericMatch (pyStrip address.toList)) = true) hd

/-- Witness for C10: a 26-character alphanumeric address is accepted, by
the generic-pattern direction of the equivalence. -/
theorem validate_wallet_address_generic_equiv_witness :
    (validateWalletAddress "abcdefghijklmnopqrstuvwxyz").1 = true :=
  (validate_wallet_address_generic_equiv "abcdefghijklmnopqrstuvwxyz").mpr
    ⟨by decide, by decide⟩

/-! ## The wallet-analysis message flow (src/bot.py lines 351-441) -/

/-- Outcome of `EllipticClient.analyze_wallet` as seen by the bot handler:
either a parsed response or the error message of one of the failure
branches (auth 401, rate limit 429, server 5xx, timeout, connection,
malformed response, unexpected). -/
inductive ApiResult where
  | success (data : Assessment)
  | failure (errorMessage : String)
deriving Repr, DecidableEq

/-- A `usage_logs` row as appended by `db.log_usage` from `analyze_wallet`:
the address plus the verdict's risk score, decision and reason. -/
structure UsageEvent where
  walletAddress : String
  riskScore : Option Rat
  decision : Decision
  reason : Reason
deriving Repr, DecidableEq

/-- An `error_logs` row as appended by `db.log_error`. -/
structure ErrorEvent where
  errorType : String
  errorMessage : String
  walletAddress : String
deriving Repr, DecidableEq

/-- The events appended by one pass of `analyze_wallet`. -/
structure BotEffects where
  usageEvents : List UsageEvent
  errorEvents : List ErrorEvent
deriving Repr, DecidableEq

/-- The event-appending slice of `analyze_wallet` (src/bot.py lines
351-441): the authorization gate, address validation (logging a validation
error), the usage-limit gate, then the API call — logging an API error and
stopping on failure, and otherwise evaluating the compliance rules and
appending exactly one usage row. -/
def analyzeWalletFlow (mapping : List (String × String)) (cfg : Config)
    (authorized : Bool) (walletAddress : String)
    (limit : LimitCheck) (api : ApiResult) : BotEffects :=
  if !authorized then ⟨[], []⟩
  else if !(validateWalletAddress walletAddress).1 then
    ⟨[], [⟨"VALIDATION_ERROR", (validateWalletAddress walletAddress).2,
      walletAddress⟩]⟩
  else if !limit.canUse then ⟨[], []⟩
  else
    match api with
    | .failure errorMessage =>
      ⟨[], [⟨"API_ERROR", errorMessage, walletAddress⟩]⟩
    | .success data =>
      let v := applyComplianceRules mapping cfg data
      ⟨[⟨walletAddress, v.riskScore, v.decision, v.reason⟩], []⟩

/-! ## Claim C7 -/

/-- C7: one usage row is appended exactly when the API call succeeded and
the evaluator ran — regardless of the Approved/Rejected decision — while an
API failure behind the gates appends one API error row and no usage row, so
failed attempts never consume quota. -/
theorem usage_event_iff_api_success (mapping : List (String × String))
    (cfg : Config) (authorized : Bool) (walletAddress : String)
    (limit : LimitCheck) (api : ApiResult) :
    ((analyzeWalletFlow mapping cfg authorized walletAddress limit
        api).usageEvents ≠ []
      ↔ authorized = true ∧ (validateWalletAddress walletAddress).1 = true
        ∧ limit.canUse = true ∧ ∃ data, api = ApiResult.success data)
    ∧ (∀ data, api = ApiResult.success data → authorized = true →
        (validateWalletAddress walletAddress).1 = true → limit.canUse = true →
        analyzeWalletFlow mapping cfg authorized walletAddress limit api =
          ⟨[⟨walletAddress,
              (applyComplianceRules mapping cfg data).riskScore,
              (applyComplianceRules mapping cfg data).decision,
              (applyComplianceRules mapping cfg data).reason⟩], []⟩)
    ∧ (∀ msg, api = ApiResult.failure msg → authorized = true →
        (validateWalletAddress walletAddress).1 = true → limit.canUse = true →
        analyzeWalletFlow mapping cfg authorized walletAddress limit api =
          ⟨[], [⟨"API_ERROR", msg, walletAddress⟩]⟩) := by
  refine ⟨?_, ?_, ?_⟩
  · cases authorized with
    | false => simp [analyzeWalletFlow]
    | true =>
      cases hval : (validateWalletAddress walletAddress).1 with
      | false => simp [analyzeWalletFlow, hval]
      | true =>
        cases hlim : limit.canUse with
        | false => simp [analyzeWalletFlow, hval, hlim]
        | true =>
          cases api with
          | success d => simp [analyzeWalletFlow, hval, hlim]
          | failure m => simp [analyzeWalletFlow, hval, hlim]
  · rintro data rfl rfl hval hlim
    simp [analyzeWalletFlow, hval, hlim]
  · rintro msg rfl rfl hval hlim
    simp [analyzeWalletFlow, hval, hlim]

/-- Witness for C7: a fully gated request with a successful no-score
response appends exactly one usage row; the same request with a failing API
call appends one API error row and no usage row. -/
theorem usage_event_iff_api_success_witness :
    analyzeWalletFlow []
      { riskScoreThreshold := 5, maxHopDistance := 3, gamblingHopLimit := 2
        gamblingContributionThreshold := 3
        highRiskCategories := ["Ransomware"], highRiskCountries := ["KP"] }
      true "abcdefghijklmnopqrstuvwxyz" ⟨true, "OK", 1, 1⟩
      (ApiResult.success ⟨none, [], []⟩) =
      ⟨[⟨"abcdefghijklmnopqrstuvwxyz", none, .approved, .noRiskScore⟩], []⟩
    ∧ analyzeWalletFlow []
      { riskScoreThreshold := 5, maxHopDistance := 3, gamblingHopLimit := 2
        gamblingContributionThreshold := 3
        highRiskCategories := ["Ransomware"], highRiskCountries := ["KP"] }
      true "abcdefghijklmnopqrstuvwxyz" ⟨true, "OK", 1, 1⟩
      (ApiResult.failure "server error") =
      ⟨[], [⟨"API_ERROR", "server error", "abcdefghijklmnopqrstuvwxyz"⟩]⟩ :=
  ⟨(usage_event_iff_api_success [] _ true "abcdefghijklmnopqrstuvwxyz"
      ⟨true, "OK", 1, 1⟩ (ApiResult.success ⟨none, [], []⟩)).2.1
      ⟨none, [], []⟩ rfl rfl (by decide) rfl,
   (usage_event_iff_api_success [] _ true "abcdefghijklmnopqrstuvwxyz"
      ⟨true, "OK", 1, 1⟩ (ApiResult.failure "server error")).2.2
      "server error" rfl rfl (by decide) rfl⟩

/-! ## Claim C5: the walk visits contributions in order and records a hit
for each visited contribution up to and including the trigger.

The nested loops of the walk are related to a single pass over the
flattened list of contributions tagged with their element's category id
and mapped name, in visitation order. -/

/-- One side's contributions in visitation order, each tagged with its
element's category id (defaulted) and registry-mapped name. -/
def taggedContributions (mapping : List (String × String))
    (exposures : List Exposure) : List (String × String × Contribution) :=
  exposures.flatMap (fun ex =>
    ex.matchedElements.flatMap (fun el =>
      el.contributions.map (fun c =>
        (el.categoryId.getD "Unknown",
          lookupCategory mapping (el.categoryId.getD "Unknown"), c))))

/-- The hit recorded for a tagged contribution. -/
def hitOf (t : String × String × Contribution) : RuleHit :=
  contributionHit t.2.1 t.2.2

/-- The rejection check of a tagged contribution. -/
def checkOf (cfg : Config) (hrIds : List String)
    (t : String × String × Contribution) : Option Reason :=
  checkContribution cfg hrIds t.1 t.2.1 t.2.2

/-- The walk over an already-flattened tagged-contribution list. -/
def walkTagged (cfg : Config) (hrIds : List String) :
    List (String × String × Contribution) → List RuleHit × Option Reason
  | [] => ([], none)
  | t :: rest =>
    match checkOf cfg hrIds t with
    | some r => ([hitOf t], some r)
    | none =>
      let step := walkTagged cfg hrIds rest
      (hitOf t :: step.1, step.2)

theorem walkTagged_append_some (cfg : Config) (hrIds : List String)
    (xs ys : List (String × String × Contribution)) (r : Reason)
    (h : (walkTagged cfg hrIds xs).2 = some r) :
    walkTagged cfg hrIds (xs ++ ys) = walkTagged cfg hrIds xs := by
  induction xs with
  | nil => simp [walkTagged] at h
  | cons t rest ih =>
    rw [List.cons_append]
    cases hc : checkOf cfg hrIds t with
    | some s => simp [walkTagged, hc]
    | none =>
      simp only [walkTagged, hc, List.append_eq] at h ⊢
      rw [ih h]

theorem walkTagged_append_none (cfg : Config) (hrIds : List String)
    (xs ys : List (String × String × Contribution))
    (h : (walkTagged cfg hrIds xs).2 = none) :
    walkTagged cfg hrIds (xs ++ ys) =
      ((walkTagged cfg hrIds xs).1 ++ (walkTagged cfg hrIds ys).1,
        (walkTagged cfg hrIds ys).2) := by
  induction xs with
  | nil => simp [walkTagged]
  | cons t rest ih =>
    rw [List.cons_append]
    cases hc : checkOf cfg hrIds t with
    | some s => simp [walkTagged, hc] at h
    | none =>
      simp only [walkTagged, hc, List.append_eq] at h ⊢
      rw [ih h]
      simp

theorem walkContributions_eq_walkTagged (cfg : Config) (hrIds : List String)
    (categoryId category : String) (cs : List Contribution) :
    walkContributions cfg hrIds categoryId category cs =
      walkTagged cfg hrIds (cs.map (fun c => (categoryId, category, c))) := by
  induction cs with
  | nil => rfl
  | cons c rest ih =>
    cases hc : checkContribution cfg hrIds categoryId category c with
    | some r => simp [walkContributions, walkTagged, checkOf, hitOf, hc]
    | none => simp [walkContributions, walkTagged, checkOf, hitOf, hc, ih]

theorem walkElements_eq_walkTagged (mapping : List (String × String))
    (cfg : Config) (hrIds : List String) (els : List MatchedElement) :
    walkElements mapping cfg hrIds els =
      walkTagged cfg hrIds (els.flatMap (fun el =>
        el.contributions.map (fun c =>
          (el.categoryId.getD "Unknown",
            lookupCategory mapping (el.categoryId.getD "Unknown"), c)))) := by
  induction els with
  | nil => rfl
  | cons el rest ih =>
    simp only [walkElements, List.flatMap_cons]
    rw [walkContributions_eq_walkTagged]
    cases hw : walkTagged cfg hrIds (el.contributions.map (fun c =>
        (el.categoryId.getD "Unknown",
          lookupCategory mapping (el.categoryId.getD "Unknown"), c))) with
    | mk hs o =>
      cases o with
      | some r =>
        rw [walkTagged_append_some cfg hrIds _ _ r (by rw [hw]), hw]
      | none =>
        rw [walkTagged_append_none cfg hrIds _ _ (by rw [hw]), hw, ih]

theorem walkExposures_eq_walkTagged (mapping : List (String × String))
    (cfg : Config) (hrIds : List String) (exposures : List Exposure) :
    walkExposures mapping cfg hrIds exposures =
      walkTagged cfg hrIds (taggedContributions mapping exposures) := by
  induction exposures with
  | nil => rfl
  | cons ex rest ih =>
    simp only [walkExposures, taggedContributions, List.flatMap_cons]
    rw [walkElements_eq_walkTagged]
    cases hw : walkTagged cfg hrIds (ex.matchedElements.flatMap (fun el =>
        el.contributions.map (fun c =>
          (el.categoryId.getD "Unknown",
            lookupCategory mapping (el.categoryId.getD "Unknown"), c)))) with
    | mk hs o =>
      cases o with
      | some r =>
        rw [walkTagged_append_some cfg hrIds _ _ r (by rw [hw]), hw]
      | none =>
        rw [walkTagged_append_none cfg hrIds _ _ (by rw [hw]), hw]
        rw [show walkExposures mapping cfg hrIds rest =
          walkTagged cfg hrIds (taggedContributions mapping rest) from ih]
        rfl

theorem walkTagged_decomp (cfg : Config) (hrIds : List String)
    (l : List (String × String × Contribution)) :
    ((∀ t ∈ l, checkOf cfg hrIds t = none) ∧
      walkTagged cfg hrIds l = (l.map hitOf, none))
    ∨ ∃ pre t post r, l = pre ++ t :: post
        ∧ (∀ u ∈ pre, checkOf cfg hrIds u = none)
        ∧ checkOf cfg hrIds t = some r
        ∧ walkTagged cfg hrIds l = ((pre ++ [t]).map hitOf, some r) := by
  induction l with
  | nil => exact Or.inl ⟨by simp, rfl⟩
  | cons t rest ih =>
    cases hc : checkOf cfg hrIds t with
    | some r =>
      refine Or.inr ⟨[], t, rest, r, by simp, by simp, hc, ?_⟩
      simp [walkTagged, hc]
    | none =>
      rcases ih with ⟨hall, heq⟩ | ⟨pre, u, post, r, hsplit, hpre, hcu, heq⟩
      · refine Or.inl ⟨?_, ?_⟩
        · intro x hx
          rcases List.mem_cons.mp hx with rfl | hx
          · exact hc
          · exact hall x hx
        · simp [walkTagged, hc, heq]
      · refine Or.inr ⟨t :: pre, u, post, r, by simp [hsplit], ?_, hcu, ?_⟩
        · intro x hx
          rcases List.mem_cons.mp hx with rfl | hx
          · exact hc
          · exact hpre x hx
        · simp [walkTagged, hc, heq]

/-- For an assessment that reaches the walk, the evaluator is the
two-phase flattened walk: Source first, then Destination. -/
theorem applyComplianceRules_walk (mapping : List (String × String))
    (cfg : Config) (a : Assessment) (rs : Rat)
    (hscore : a.riskScore = some rs) (hlt : rs < cfg.riskScoreThreshold) :
    applyComplianceRules mapping cfg a =
      match walkTagged cfg (highRiskCategoryIds mapping cfg)
          (taggedContributions mapping a.sourceExposures) with
      | (hs, some r) =>
        { decision := .rejected, reason := r, riskScore := some rs
          triggeredSource := hs, triggeredDestination := [] }
      | (hs, none) =>
        match walkTagged cfg (highRiskCategoryIds mapping cfg)
            (taggedContributions mapping a.destinationExposures) with
        | (hd, some r) =>
          { decision := .rejected, reason := r, riskScore := some rs
            triggeredSource := hs, triggeredDestination := hd }
        | (hd, none) =>
          { decision := .approved, reason := .allChecksPassed
            riskScore := some rs
            triggeredSource := hs, triggeredDestination := hd } := by
  unfold applyComplianceRules
  rw [hscore]
  simp only [if_neg (not_le.mpr hlt)]
  rw [walkExposures_eq_walkTagged, walkExposures_eq_walkTagged]
  cases hsrc : walkTagged cfg (highRiskCategoryIds mapping cfg)
      (taggedContributions mapping a.sourceExposures) with
  | mk hs osrc =>
    cases osrc with
    | some r => rfl
    | none =>
      cases hdst : walkTagged cfg (highRiskCategoryIds mapping cfg)
          (taggedContributions mapping a.destinationExposures) with
      | mk hd odst => cases odst <;> rfl

/-- C5: for every assessment that reaches the exposure walk, the triggered
rules record exactly the visited contributions in visitation order (all
Source-side contributions before all Destination-side ones, exposures,
elements and contributions in given order).  Either no contribution's check
fires and the walk completes Approved with one hit per contribution on each
side in order; or there is a first triggering contribution: everything
before it checks clean, the verdict is Rejected with that contribution's
reason, and the concatenated Source-then-Destination triggered lists are
exactly the hits of the visited prefix up to and including the trigger —
its own hit recorded, nothing after it present. -/
theorem triggered_rules_walk_order (mapping : List (String × String))
    (cfg : Config) (a : Assessment) (rs : Rat)
    (hscore : a.riskScore = some rs) (hlt : rs < cfg.riskScoreThreshold) :
    ((∀ t ∈ taggedContributions mapping a.sourceExposures ++
        taggedContributions mapping a.destinationExposures,
        checkOf cfg (highRiskCategoryIds mapping cfg) t = none)
      ∧ (applyComplianceRules mapping cfg a).decision = .approved
      ∧ (applyComplianceRules mapping cfg a).reason = .allChecksPassed
      ∧ (applyComplianceRules mapping cfg a).triggeredSource
          = (taggedContributions mapping a.sourceExposures).map hitOf
      ∧ (applyComplianceRules mapping cfg a).triggeredDestination
          = (taggedContributions mapping a.destinationExposures).map hitOf)
    ∨ (∃ pre t post r,
        taggedContributions mapping a.sourceExposures ++
          taggedContributions mapping a.destinationExposures
          = pre ++ t :: post
        ∧ (∀ u ∈ pre, checkOf cfg (highRiskCategoryIds mapping cfg) u = none)
        ∧ checkOf cfg (highRiskCategoryIds mapping cfg) t = some r
        ∧ (applyComplianceRules mapping cfg a).decision = .rejected
        ∧ (applyComplianceRules mapping cfg a).reason = r
        ∧ (applyComplianceRules mapping cfg a).triggeredSource ++
            (applyComplianceRules mapping cfg a).triggeredDestination
            = (pre ++ [t]).map hitOf) := by
  rw [applyComplianceRules_walk mapping cfg a rs hscore hlt]
  rcases walkTagged_decomp cfg (highRiskCategoryIds mapping cfg)
      (taggedContributions mapping a.sourceExposures) with
    ⟨hallx, heqx⟩ | ⟨pre, t, post, r, hsplit, hpre, hct, heqx⟩
  · rcases walkTagged_decomp cfg (highRiskCategoryIds mapping cfg)
        (taggedContributions mapping a.destinationExposures) with
      ⟨hally, heqy⟩ | ⟨pre2, t2, post2, r2, hsplit2, hpre2, hct2, heqy⟩
    · left
      rw [heqx, heqy]
      refine ⟨?_, rfl, rfl, rfl, rfl⟩
      intro x hx
      rcases List.mem_append.mp hx with hx | hx
      · exact hallx x hx
      · exact hally x hx
    · right
      rw [heqx, heqy]
      refine ⟨taggedContributions mapping a.sourceExposures ++ pre2, t2,
        post2, r2, by rw [hsplit2]; simp, ?_, hct2, rfl, rfl, ?_⟩
      · intro u hu
        rcases List.mem_append.mp hu with hu | hu
        · exact hallx u hu
        · exact hpre2 u hu
      · simp [List.map_append]
  · right
    rw [heqx]
    refine ⟨pre, t, post ++ taggedContributions mapping a.destinationExposures,
      r, by rw [hsplit]; simp, hpre, hct, rfl, rfl, by simp⟩

/-- A concrete mapping for the C5 witness. -/
def egMapping : List (String × String) := [("1", "Ransomware")]

/-- A concrete configuration (the src/config.py defaults, with the name
and country sets cut down) for the C5 witness. -/
def egConfig : Config :=
  { riskScoreThreshold := 5, maxHopDistance := 3, gamblingHopLimit := 2
    gamblingContributionThreshold := 3
    highRiskCategories := ["Ransomware"], highRiskCountries := ["KP"] }

/-- A concrete assessment for the C5 witness: one clean Source
contribution, then a Destination element whose first contribution triggers
the high-risk-category rule and whose second contribution must not be
visited. -/
def egAssessment : Assessment :=
  { riskScore := some 2
    sourceExposures := [⟨[⟨some "7", [⟨some 1, some 1, []⟩]⟩]⟩]
    destinationExposures :=
      [⟨[⟨some "1", [⟨some 2, some 1, []⟩, ⟨some 1, some 1, []⟩]⟩]⟩] }

/-- Witness for C5 at `egAssessment`: the walk is entered and the
conclusion of the walk-order theorem holds there. -/
theorem triggered_rules_walk_order_witness :
    ((∀ t ∈ taggedContributions egMapping egAssessment.sourceExposures ++
        taggedContributions egMapping egAssessment.destinationExposures,
        checkOf egConfig (highRiskCategoryIds egMapping egConfig) t = none)
      ∧ (applyComplianceRules egMapping egConfig egAssessment).decision
          = .approved
      ∧ (applyComplianceRules egMapping egConfig egAssessment).reason
          = .allChecksPassed
      ∧ (applyComplianceRules egMapping egConfig egAssessment).triggeredSource
          = (taggedContributions egMapping egAssessment.sourceExposures).map
              hitOf
      ∧ (applyComplianceRules egMapping egConfig
            egAssessment).triggeredDestination
          = (taggedContributions egMapping
              egAssessment.destinationExposures).map hitOf)
    ∨ (∃ pre t post r,
        taggedContributions egMapping egAssessment.sourceExposures ++
          taggedContributions egMapping egAssessment.destinationExposures
          = pre ++ t :: post
        ∧ (∀ u ∈ pre,
            checkOf egConfig (highRiskCategoryIds egMapping egConfig) u = none)
        ∧ checkOf egConfig (highRiskCategoryIds egMapping egConfig) t = some r
        ∧ (applyComplianceRules egMapping egConfig egAssessment).decision
            = .rejected
        ∧ (applyComplianceRules egMapping egConfig egAssessment).reason = r
        ∧ (applyComplianceRules egMapping egConfig
              egAssessment).triggeredSource ++
            (applyComplianceRules egMapping egConfig
              egAssessment).triggeredDestination
            = (pre ++ [t]).map hitOf) :=
  triggered_rules_walk_order egMapping egConfig egAssessment 2 rfl (by decide)

end SolidusTelebot
